import Mathlib

/-!
Verification of the BoxToPlay rotation worker (`src/worker.py`).

A shallow embedding of the rotation worker.  The worker rotates a game
server between two provider accounts: it reads a state document from a
remote store (a GitHub gist), decommissions the currently active
account's server, provisions a fresh server on the other account,
migrates the world data over FTP, starts the new server and commits the
flipped state back to the store.

External collaborators (the browser session against the provider, the
`lftp` transfer tool, the gist API) are modelled by an oracle `Env`
whose fields give each external call's outcome.  Each Python function is
translated to a Lean function of `Env` (plus its arguments) that returns
its result together with a trace of the externally visible calls it
performed.  Python exceptions are modelled with `Except`; the big
`try/except` in `main` is the final `match` in `runMain`.

Modelling conventions:
* Python dicts holding the state document become the structures
  `RotState` / `Account`; a field read with `.get` that may be absent or
  `null` becomes an `Option`.  `current_server_id` and the per-account
  `server_id` can be a JSON string, number or null in a hostile
  document, so they carry `PVal` values (`str(x)` is `pyStr`,
  truthiness is `pvalTruthy`).
* `str.isdigit` is modelled over the ASCII character set
  (`Char.isDigit`); exotic Unicode digit characters are outside the
  modelled alphabet.
* Selenium calls that `worker.py` performs without any error handling
  (`execute_script` fire-and-forget calls such as `change_server_dns`,
  `stop_server`, `start_server`, `install_modpack`, plain navigation)
  are modelled as always succeeding; the modelled failure points are
  exactly the ones the code branches on: the gist read/write, the two
  login paths, the panel scrape, the checkout/terms clicks, the FTP
  account creation, the cookie harvest and the two `lftp` stages.
* The ten-round polling loop for the new server id queries a stable
  oracle (`Env.panel_server_id`), so it is equivalent to a single query:
  polling exhaustion is the oracle answering `none` (or an empty id).
-/

/-- A JSON scalar as it can appear in the state document for the
`current_server_id` / `server_id` fields (worker.py stores strings, but
the document could hold a number or null). -/
inductive PVal where
  | vnull : PVal
  | vstr : String → PVal
  | vint : Int → PVal
deriving DecidableEq, Repr

/-- Python truthiness of a `PVal` (`None`, `""` and `0` are falsy). -/
def pvalTruthy : PVal → Bool
  | .vnull => false
  | .vstr s => s != ""
  | .vint n => n != 0

/-- Python `str(...)` applied to a `PVal`. -/
def pyStr : PVal → String
  | .vnull => "None"
  | .vstr s => s
  | .vint n => toString n

/-- Python truthiness of `dict.get(key)` on an optional string field. -/
def truthyOptStr : Option String → Bool
  | none => false
  | some s => s != ""

/-- Python truthiness of `dict.get(key)` on an optional `PVal` field. -/
def truthyOptPVal : Option PVal → Bool
  | none => false
  | some v => pvalTruthy v

/-- Python `s.isdigit()` restricted to the ASCII alphabet: non-empty and
every character a decimal digit. -/
def pyIsDigit (s : String) : Bool := s != "" && s.toList.all (·.isDigit)

/-- ASCII lowering of one character (`str.lower` also folds non-ASCII
letters, which are outside the modelled alphabet). -/
def asciiLower (c : Char) : Char :=
  if 'A' ≤ c ∧ c ≤ 'Z' then Char.ofNat (c.toNat + 32) else c

/-- Python `s.lower()` over the ASCII alphabet. -/
def pyLower (s : String) : String := String.mk (s.toList.map asciiLower)

/-- Does `pat` occur as a prefix of `s`? -/
def listIsPrefix : List Char → List Char → Bool
  | [], _ => true
  | _ :: _, [] => false
  | p :: ps, c :: cs => p == c && listIsPrefix ps cs

/-- Does `pat` occur as a contiguous sublist of `s`? -/
def listContainsSub (pat s : List Char) : Bool :=
  match s with
  | [] => listIsPrefix pat []
  | _ :: rest => listIsPrefix pat s || listContainsSub pat rest

/-- Python `pat in s` substring test. -/
def strContainsSub (s pat : String) : Bool := listContainsSub pat.toList s.toList

/-- Python `d.get(k, dflt)` on a dict of strings (modelled as an
association list; the worker builds these dicts with unique keys). -/
def dictGet (d : List (String × String)) (k dflt : String) : String :=
  match d.find? (fun p => p.1 == k) with
  | some p => p.2
  | none => dflt

/-- Python list indexing `xs[i]` with negative-index wrap-around;
`none` is an `IndexError`. -/
def pyGet {α : Type} (xs : List α) (i : Int) : Option α :=
  if 0 ≤ i then
    if i < xs.length then xs.get? i.toNat else none
  else
    if 0 ≤ i + xs.length then xs.get? (i + xs.length).toNat else none

/-- Replace the element at position `n` (no-op when out of range), for
the in-place updates `state["accounts"][next_index][...] = ...`. -/
def listModify {α : Type} (xs : List α) (n : Nat) (f : α → α) : List α :=
  match xs, n with
  | [], _ => []
  | x :: rest, 0 => f x :: rest
  | x :: rest, n + 1 => x :: listModify rest n f

/-- One entry of the `accounts` array of the gist document
(worker.py line 30). -/
structure Account where
  email : String
  password : String
  cookies : List (String × String)
  ftp_host : Option String
  ftp_user : Option String
  server_id : Option PVal
  ftp_password : Option String
deriving DecidableEq, Repr

/-- The state document `boxtoplay.json` held in the gist
(worker.py line 26).  `accounts` is always present; `none` on the other
fields means the key is absent from the document. -/
structure RotState where
  active_account_index : Option Int
  current_server_id : Option PVal
  ftp_password : Option String
  accounts : List Account
deriving DecidableEq, Repr

/-- Environment-variable configuration (worker.py lines 73-76). -/
structure Config where
  FTP_PASSWORD : String
  IP_NEW_SERVER : String
deriving DecidableEq, Repr

/-- Externally visible calls a run performs, for stating which remote
actions did and did not happen.  Actions driven through an account's
browser session carry that account's email.  `emptyReservation` is the
cart rollback the design documents describe; it is part of the action
vocabulary precisely so that its absence from every trace of the
embedded code can be stated — `worker.py` contains no code emitting it. -/
inductive Act where
  | loginCookie : String → Act
  | loginCreds : String → Act
  | clearDNS : String → String → Act
  | stopServer : String → String → Act
  | addToCart : String → Act
  | checkout : String → Act
  | acceptGcu : String → Act
  | emptyReservation : String → Act
  | setDNS : String → String → String → Act
  | createFtp : String → String → Act
  | installModpack : String → String → Act
  | lftpDownload : String → Act
  | lftpUpload : String → Act
  | startServer : String → Act
  | gistPatch : Act
deriving DecidableEq, Repr

/-- The account email an action is performed under, when it is an
action inside some account's provider session. -/
def actionEmail : Act → Option String
  | .loginCookie e => some e
  | .loginCreds e => some e
  | .clearDNS e _ => some e
  | .stopServer e _ => some e
  | .addToCart e => some e
  | .checkout e => some e
  | .acceptGcu e => some e
  | .emptyReservation e => some e
  | .setDNS e _ _ => some e
  | .createFtp e _ => some e
  | .installModpack e _ => some e
  | .lftpDownload _ => none
  | .lftpUpload _ => none
  | .startServer _ => none
  | .gistPatch => none

/-- Is this action the reservation rollback? -/
def isEmptyRes : Act → Bool
  | .emptyReservation _ => true
  | _ => false

/-- Is this action an invocation of the `lftp` transfer tool? -/
def isLftp : Act → Bool
  | .lftpDownload _ => true
  | .lftpUpload _ => true
  | _ => false

/-- Error taxonomy for the exceptions `main` can catch. -/
inductive Err where
  | authTarget
  | buyFail
  | serverNotFound
  | ftpSetupFail
  | invalidInfo
  | noSessionCookie
  | validateFail
  | storeWrite
deriving DecidableEq, Repr

/-- Oracle for every external collaborator: each field is the outcome
the outside world would give to the corresponding call of `worker.py`.
`offerPriceCents` is the price the provider displays for the free
offering; no field of the worker reads it — it is here so that the
worker's independence from the displayed price can be stated. -/
structure Env where
  state_read : Except Unit RotState
  cookie_ok : String → Bool
  cred_ok : String → Bool
  panel_server_id : String → Option String
  offerPriceCents : Nat
  checkout_ok : String → Bool
  gcu_ok : String → Bool
  ftp_setup_ok : String → Bool
  ftp_host_scraped : String → String
  now : Nat
  fresh_cookies : String → List (String × String)
  retry_cookies : String → List (String × String)
  download_ok : String → Bool
  upload_ok : String → Bool
  patch_ok : Bool

/-- An FTP credential triple as the worker passes it around
(`{"host": ..., "user": ..., "password": ...}`); host and user come from
`dict.get` on the account record and may be null. -/
structure FtpCreds where
  host : Option String
  user : Option String
  password : String
deriving DecidableEq, Repr

/-- The dict returned by `process_target_account` (worker.py 1022). -/
structure TargetResult where
  server_id : String
  ftp_host : String
  ftp_user : String
  ftp_password : String
  cookies : List (String × String)
deriving DecidableEq, Repr

/-- Outcome of one `main()` run: the process exit code, the state
document written to the gist (if the run committed one), and the trace
of external actions performed. -/
structure RunOutcome where
  exitCode : Nat
  written : Option RotState
  trace : List Act
deriving DecidableEq, Repr

/-! ## Validation gate (worker.py 161-257) -/

/-- `validate_server_info` (worker.py 161): the aggregated error list
for a harvested (server_id, ftp_host, ftp_user) triple. -/
def validate_server_info_errors (server_id ftp_host ftp_user : String) :
    List String :=
  (if server_id == "" then ["server_id est vide ou None"]
   else if !pyIsDigit server_id then ["server_id n est pas un nombre valide"]
   else []) ++
  (if ftp_host == "" then ["ftp_host est vide ou None"]
   else if !strContainsSub (pyLower ftp_host) "boxtoplay" && !ftp_host.toList.contains '.' then
     ["ftp_host semble invalide"]
   else []) ++
  (if ftp_user == "" then ["ftp_user est vide ou None"]
   else if ftp_user.length < 3 then ["ftp_user est trop court"]
   else [])

/-- `validate_server_info` (worker.py 161): true iff no error. -/
def validate_server_info (server_id ftp_host ftp_user : String) : Bool :=
  validate_server_info_errors server_id ftp_host ftp_user == []

/-- The error list `validate_state_before_save` accumulates once the
basic `accounts` structure check passed and the target account was
fetched (worker.py 220-249). -/
def vsbs_target_errors (st : RotState) (t : Account) : List String :=
  (match st.active_account_index with
   | none => ["active_account_index manquant"]
   | some v => if v = 0 ∨ v = 1 then [] else ["active_account_index invalide"]) ++
  (match st.current_server_id with
   | none => ["current_server_id manquant"]
   | some v =>
     if pvalTruthy v && !pyIsDigit (pyStr v) then ["current_server_id invalide"]
     else []) ++
  (if truthyOptPVal t.server_id then [] else ["compte cible server_id manquant"]) ++
  (if truthyOptStr t.ftp_host then [] else ["compte cible ftp_host manquant"]) ++
  (if truthyOptStr t.ftp_user then [] else ["compte cible ftp_user manquant"]) ++
  (if t.cookies.isEmpty || dictGet t.cookies "BOXTOPLAY_SESSION" "" == "" then
     ["compte cible cookies invalides"]
   else []) ++
  (match st.current_server_id, t.server_id with
   | some v, some w =>
     if pvalTruthy v && pvalTruthy w && pyStr v ≠ pyStr w then
       ["incoherence current_server_id"]
     else []
   | _, _ => [])

/-- `validate_state_before_save` (worker.py 202) as an error list.  A
malformed `accounts` structure short-circuits with a single error
(worker.py 216-218); an out-of-range target index raises `IndexError`
in Python (unreachable from `main`), modelled as a rejection. -/
def vsbs_errors (st : RotState) (ti : Int) : List String :=
  if st.accounts.length ≠ 2 then ["structure accounts invalide"]
  else
    match pyGet st.accounts ti with
    | some t => vsbs_target_errors st t
    | none => ["index du compte cible hors limites"]

/-- `validate_state_before_save` (worker.py 202): true iff no error. -/
def validate_state_before_save (st : RotState) (ti : Int) : Bool :=
  vsbs_errors st ti == []

/-! ## Authentication and account processing (worker.py 419-1048) -/

/-- The login ladder both account-processing functions use
(worker.py 905-909 and 956-959): try `login_with_cookie` with the
on-file `BOXTOPLAY_SESSION` cookie (which bails out at once on an empty
cookie, worker.py 430), then fall back to `login_with_credentials`. -/
def account_login (env : Env) (a : Account) : Bool × List Act :=
  let c := dictGet a.cookies "BOXTOPLAY_SESSION" ""
  if c == "" then
    (env.cred_ok a.email, [.loginCreds a.email])
  else if env.cookie_ok c then
    (true, [.loginCookie a.email])
  else
    (env.cred_ok a.email, [.loginCookie a.email, .loginCreds a.email])

/-- `process_active_account` (worker.py 884): log in to the expiring
account (returning `None` when both login paths fail), clear the DNS
and stop the server when the panel shows one, and hand back the FTP
credentials already on file (`FTP_PASSWORD or account.get("ftp_password", "")`,
worker.py 923-927). -/
def process_active_account (cfg : Config) (env : Env) (a : Account) :
    Option FtpCreds × List Act :=
  match account_login env a with
  | (false, tr) => (none, tr)
  | (true, tr) =>
    let stopTr :=
      match env.panel_server_id a.email with
      | some sid =>
        if sid == "" then [] else [Act.clearDNS a.email sid, Act.stopServer a.email sid]
      | none => []
    (some { host := a.ftp_host
            user := a.ftp_user
            password :=
              if cfg.FTP_PASSWORD != "" then cfg.FTP_PASSWORD
              else a.ftp_password.getD "" },
     tr ++ stopTr)

/-- `buy_free_server` (worker.py 551): navigate to the shop, add the
free offering to the cart, click checkout, accept the terms.  Any click
failure is caught and returns `False` (worker.py 587-589).  There is no
price inspection and no cart rollback anywhere in the function. -/
def buy_free_server (env : Env) (e : String) : Bool × List Act :=
  if env.checkout_ok e then
    if env.gcu_ok e then (true, [.addToCart e, .checkout e, .acceptGcu e])
    else (false, [.addToCart e, .checkout e])
  else (false, [.addToCart e])

/-- The "validation des données avant retour" block of
`process_target_account` (worker.py 990-1031): check the scraped server
id is numeric, the FTP host and user are plausible, retry the cookie
harvest once when the session cookie is missing, run
`validate_server_info`, and build the result record (`server_id` always
as a string). -/
def harvest_checks (env : Env) (a : Account) (pw sid : String) :
    Except Err TargetResult :=
  let host := env.ftp_host_scraped a.email
  let user := "user_" ++ toString env.now
  if !pyIsDigit sid then .error .invalidInfo
  else if host == "" || host.length < 5 then .error .invalidInfo
  else if user == "" || user.length < 3 then .error .invalidInfo
  else
    let fresh := env.fresh_cookies a.email
    let cookies :=
      if dictGet fresh "BOXTOPLAY_SESSION" "" != "" then fresh
      else env.retry_cookies a.email
    if dictGet cookies "BOXTOPLAY_SESSION" "" == "" then .error .noSessionCookie
    else if !validate_server_info sid host user then .error .invalidInfo
    else
      .ok { server_id := sid, ftp_host := host, ftp_user := user,
            ftp_password := pw, cookies := cookies }

/-- `process_target_account` (worker.py 933): log in (raising when both
paths fail), buy the server (raising on failure), poll the panel for
the new server id (raising when it never appears non-empty), set the
DNS, create the FTP account (raising on failure), install the modpack,
harvest cookies, then run the validation block `harvest_checks` and
return the harvested record. -/
def process_target_account (cfg : Config) (env : Env) (a : Account) (pw : String) :
    Except Err TargetResult × List Act :=
  match account_login env a with
  | (false, tr0) => (.error .authTarget, tr0)
  | (true, tr0) =>
    match buy_free_server env a.email with
    | (false, trB) => (.error .buyFail, tr0 ++ trB)
    | (true, trB) =>
      match env.panel_server_id a.email with
      | none => (.error .serverNotFound, tr0 ++ trB)
      | some sid =>
        if sid == "" then (.error .serverNotFound, tr0 ++ trB)
        else
          let trD := [Act.setDNS a.email sid cfg.IP_NEW_SERVER]
          if !env.ftp_setup_ok a.email then
            (.error .ftpSetupFail, tr0 ++ trB ++ trD ++ [Act.createFtp a.email sid])
          else
            (harvest_checks env a pw sid,
             tr0 ++ trB ++ trD ++
               [Act.createFtp a.email sid, Act.installModpack a.email sid])

/-! ## Transfer pipeline (worker.py 707-877) -/

/-- Python string interpolation of an optional value (`f-strings` print
`None` for null). -/
def optStr : Option String → String
  | some s => s
  | none => "None"

/-- `transfer_world_data` (worker.py 815): a missing source (or a
source with no host) is a no-op success; a failed download is a warning
and the function returns `True` without uploading (worker.py 849-851);
a failed upload returns `False` (worker.py 863-865). -/
def transfer_world_data (env : Env) (source : Option FtpCreds) (target : FtpCreds) :
    Bool × List Act :=
  match source with
  | none => (true, [])
  | some s =>
    match s.host with
    | none => (true, [])
    | some h =>
      if h == "" then (true, [])
      else if !env.download_ok h then (true, [.lftpDownload h])
      else
        let th := optStr target.host
        if env.upload_ok th then (true, [.lftpDownload h, .lftpUpload th])
        else (false, [.lftpDownload h, .lftpUpload th])

/-- `finalize_server` (worker.py 1034): log back in with the freshly
harvested cookie and start the server; a failed login just skips the
start (non-fatal). -/
def finalize_server (env : Env) (cookies : List (String × String)) (sid : String) :
    List Act :=
  let c := dictGet cookies "BOXTOPLAY_SESSION" ""
  if c != "" && env.cookie_ok c then [.startServer sid] else []

/-! ## State store write (worker.py 260-314) -/

/-- `update_state` (worker.py 260): when a target index is supplied the
document is validated first and a failure raises before any network
call; otherwise (and after a successful validation) the whole document
is PATCHed to the gist. -/
def update_state (env : Env) (st : RotState) (ti : Option Int) :
    Except Err Unit × List Act :=
  match ti with
  | some i =>
    if validate_state_before_save st i then
      if env.patch_ok then (.ok (), [.gistPatch]) else (.error .storeWrite, [.gistPatch])
    else (.error .validateFail, [])
  | none =>
    if env.patch_ok then (.ok (), [.gistPatch]) else (.error .storeWrite, [.gistPatch])

/-! ## The main run (worker.py 1055-1209) -/

/-- `FTP_PASSWORD or state.get("ftp_password", "defaultpass")`
(worker.py 1094). -/
def mainPw (cfg : Config) (st : RotState) : String :=
  if cfg.FTP_PASSWORD != "" then cfg.FTP_PASSWORD
  else st.ftp_password.getD "defaultpass"

/-- `state["accounts"][next_index][...] = ...` followed by the
document-level field updates of worker.py 1167-1175: flip the index,
set `current_server_id` (always as a string), and overwrite the target
account's cookies, FTP data and server id. -/
def overwriteSlot (tres : TargetResult) (a : Account) : Account :=
  { a with
    cookies := tres.cookies
    ftp_host := some tres.ftp_host
    ftp_user := some tres.ftp_user
    server_id := some (.vstr tres.server_id) }

def commitState (st : RotState) (next : Int) (tres : TargetResult) : RotState :=
  { st with
    active_account_index := some next
    current_server_id := some (.vstr tres.server_id)
    accounts := listModify st.accounts next.toNat (overwriteSlot tres) }

/-- Steps 2-6 of `main` (worker.py 1098-1198), after the state document
was loaded and both account records fetched: decommission the active
account when it has an FTP host on file (worker.py 1104-1108), provision
the target account, run the transfer pipeline — whose boolean result
`main` discards (worker.py 1135) — finalize, re-check the harvested
fields, commit.  Every raised exception lands in the `except` clause of
`main` and yields exit code 1 with nothing written. -/
def runRotation (cfg : Config) (env : Env) (st : RotState)
    (activeAcc targetAcc : Account) (next : Int) : RunOutcome :=
  let pw := mainPw cfg st
  let src := if truthyOptStr activeAcc.ftp_host then
               process_active_account cfg env activeAcc
             else (none, [])
  match process_target_account cfg env targetAcc pw with
  | (.error _, tr2) => ⟨1, none, src.2 ++ tr2⟩
  | (.ok tres, tr2) =>
    let targetFtp : FtpCreds := ⟨some tres.ftp_host, some tres.ftp_user, pw⟩
    let tr3 := (transfer_world_data env src.1 targetFtp).2
    let tr4 := finalize_server env tres.cookies tres.server_id
    if tres.server_id == "" || tres.ftp_host == "" || tres.ftp_user == ""
        || dictGet tres.cookies "BOXTOPLAY_SESSION" "" == "" then
      ⟨1, none, src.2 ++ tr2 ++ tr3 ++ tr4⟩
    else
      let st2 := commitState st next tres
      match update_state env st2 (some next) with
      | (.error _, tr5) => ⟨1, none, src.2 ++ tr2 ++ tr3 ++ tr4 ++ tr5⟩
      | (.ok _, tr5) => ⟨0, some st2, src.2 ++ tr2 ++ tr3 ++ tr4 ++ tr5⟩

/-- Step 1 of `main` (worker.py 1086-1092): compute the (active,
target) pair; an absent `active_account_index` defaults to 0, and the
two list accesses can raise `IndexError` for a malformed index. -/
def runAfterLoad (cfg : Config) (env : Env) (st : RotState) : RunOutcome :=
  let cur : Int := st.active_account_index.getD 0
  let next : Int := if cur = 0 then 1 else 0
  match pyGet st.accounts cur, pyGet st.accounts next with
  | some activeAcc, some targetAcc => runRotation cfg env st activeAcc targetAcc next
  | _, _ => ⟨1, none, []⟩

/-- One full `main()` run (worker.py 1055): a failing gist read raises
before anything else happens. -/
def runMain (cfg : Config) (env : Env) : RunOutcome :=
  match env.state_read with
  | .error _ => ⟨1, none, []⟩
  | .ok st => runAfterLoad cfg env st

/-- The FATAL causes of claim C2 that arise in the target-account step:
the target slot's authentication fails on both paths, the allocation is
refused or fails, the polling for the new resource id is exhausted, or
the harvested data fails the validation gate. -/
def targetFatalCause (env : Env) (tacc : Account) : Prop :=
  (account_login env tacc).1 = false ∨
  (buy_free_server env tacc.email).1 = false ∨
  env.panel_server_id tacc.email = none ∨
  env.panel_server_id tacc.email = some "" ∨
  (∀ sid, env.panel_server_id tacc.email = some sid →
    validate_server_info sid (env.ftp_host_scraped tacc.email)
      ("user_" ++ toString env.now) = false)

/-! ## Concrete fixtures

A two-account document in the shape of the sample in worker.py's header
comment, and an environment in which every external call succeeds.
Variations of these fixtures instantiate the hypotheses of the theorems
below and serve as concrete counterexamples. -/

/-- Slot 0 of the sample document: currently active, fully populated. -/
def acct0 : Account :=
  { email := "compte1@example.com", password := "password1",
    cookies := [("BOXTOPLAY_SESSION", "tok0")],
    ftp_host := some "ftp1.boxtoplay.com", ftp_user := some "user_1111",
    server_id := some (.vstr "111111"), ftp_password := some "ftppass" }

/-- Slot 1 of the sample document: dormant. -/
def acct1 : Account :=
  { email := "compte2@example.com", password := "password2",
    cookies := [], ftp_host := none, ftp_user := none,
    server_id := none, ftp_password := none }

/-- The sample document with slot 0 active. -/
def st0 : RotState :=
  { active_account_index := some 0, current_server_id := some (.vstr "111111"),
    ftp_password := some "sharedpass", accounts := [acct0, acct1] }

/-- Configuration with no operator-supplied FTP password override. -/
def cfg0 : Config := { FTP_PASSWORD := "", IP_NEW_SERVER := "orny" }

/-- An environment where every external call succeeds: logins work,
the free offering checks out, the panel shows server 445566 on the
target account, FTP setup and both transfer stages succeed, and the
gist accepts the PATCH. -/
def envGood : Env :=
  { state_read := .ok st0
    cookie_ok := fun _ => true
    cred_ok := fun _ => true
    panel_server_id := fun e =>
      if e = "compte2@example.com" then some "445566" else some "111111"
    offerPriceCents := 0
    checkout_ok := fun _ => true
    gcu_ok := fun _ => true
    ftp_setup_ok := fun _ => true
    ftp_host_scraped := fun _ => "ftp2.boxtoplay.com"
    now := 1700000000
    fresh_cookies := fun _ => [("BOXTOPLAY_SESSION", "freshtok")]
    retry_cookies := fun _ => []
    download_ok := fun _ => true
    upload_ok := fun _ => true
    patch_ok := true }

/-- The harvested record the good environment produces for slot 1. -/
def tresGood : TargetResult :=
  { server_id := "445566", ftp_host := "ftp2.boxtoplay.com",
    ftp_user := "user_1700000000", ftp_password := "sharedpass",
    cookies := [("BOXTOPLAY_SESSION", "freshtok")] }

/-- The state document the good run commits. -/
def stGood : RotState := commitState st0 1 tresGood

/-- The good environment, except the mirror push (`lftp` upload) to the
new server's FTP storage fails. -/
def envPushFail : Env := { envGood with upload_ok := fun _ => false }

/-- The good environment, except the provider displays a price of
4.99 for the offering (499 cents); every click still succeeds. -/
def envPriced : Env := { envGood with offerPriceCents := 499 }

/-- The good environment, except the checkout click on the offering
fails, so `buy_free_server` returns false. -/
def envBuyFail : Env := { envGood with checkout_ok := fun _ => false }

/-- The good environment, except both login paths fail for the
outgoing account (slot 0): its session cookie `tok0` is rejected and
its credential login fails; the target account still logs in with
credentials and the freshly harvested cookie still works. -/
def envOutgoingAuthFail : Env :=
  { envGood with
    cookie_ok := fun c => c = "freshtok"
    cred_ok := fun e => e = "compte2@example.com" }

/-- Slot 0 with a null `server_id` but an FTP host still on file. -/
def acct0NullServer : Account := { acct0 with server_id := none }

/-- A document whose outgoing slot has `server_id` null yet
`ftp_host` populated. -/
def stNullServer : RotState :=
  { st0 with
    current_server_id := none
    accounts := [acct0NullServer, acct1] }

/-- The good environment reading the `stNullServer` document. -/
def envNullServer : Env := { envGood with state_read := .ok stNullServer }

/-- The sample document with the `active_account_index` key absent. -/
def stNoIndex : RotState := { st0 with active_account_index := none }

/-- The good environment reading the index-less document. -/
def envNoIndex : Env := { envGood with state_read := .ok stNoIndex }

/-- A slot in the shape of the validation-aggregation scenario:
`server_id` and `ftp_host` empty, `ftp_user` two characters long, but a
valid session cookie. -/
def acctBadFields : Account :=
  { email := "compte2@example.com", password := "password2",
    cookies := [("BOXTOPLAY_SESSION", "tok")],
    ftp_host := some "", ftp_user := some "ab",
    server_id := some (.vstr ""), ftp_password := none }

/-- A document whose target slot (index 1) is `acctBadFields` and whose
other fields are all well-formed. -/
def stBadFields : RotState :=
  { active_account_index := some 1, current_server_id := some (.vstr "123"),
    ftp_password := some "sharedpass", accounts := [acct0, acctBadFields] }

/-! ## Helper lemmas about indexing and traces -/

theorem pyGet_pair_zero {α : Type} (x y : α) : pyGet [x, y] 0 = some x := rfl

theorem pyGet_pair_one {α : Type} (x y : α) : pyGet [x, y] 1 = some y := rfl

theorem listModify_pair_zero {α : Type} (x y : α) (f : α → α) :
    listModify [x, y] 0 f = [f x, y] := rfl

theorem listModify_pair_one {α : Type} (x y : α) (f : α → α) :
    listModify [x, y] 1 f = [x, f y] := rfl

theorem listModify_length {α : Type} (xs : List α) (n : Nat) (f : α → α) :
    (listModify xs n f).length = xs.length := by
  induction xs generalizing n with
  | nil => rfl
  | cons x rest ih =>
    cases n with
    | zero => rfl
    | succ m => simp [listModify, ih]

/-- An action performed inside an account's provider session is not an
`lftp` invocation, not the gist PATCH and not a server start. -/
theorem emailed_not_special {act : Act} {e : String}
    (h : actionEmail act = some e) :
    act ≠ Act.gistPatch ∧
    (∀ s, act ≠ Act.startServer s ∧ act ≠ Act.lftpDownload s ∧
      act ≠ Act.lftpUpload s) := by
  cases act <;> simp_all [actionEmail]

theorem account_login_trace (env : Env) (a : Account) :
    ∀ act ∈ (account_login env a).2,
      act = Act.loginCookie a.email ∨ act = Act.loginCreds a.email := by
  intro act h
  simp only [account_login] at h
  split at h <;> [skip; split at h] <;> simp_all

theorem account_login_mem (env : Env) (a : Account) :
    Act.loginCookie a.email ∈ (account_login env a).2 ∨
      Act.loginCreds a.email ∈ (account_login env a).2 := by
  simp only [account_login]
  split <;> [skip; split] <;> simp

theorem process_active_account_trace (cfg : Config) (env : Env) (a : Account) :
    ∀ act ∈ (process_active_account cfg env a).2,
      actionEmail act = some a.email ∧ isEmptyRes act = false := by
  intro act h
  rcases hal : account_login env a with ⟨b, tr⟩
  have haltr := account_login_trace env a act
  rw [hal] at haltr
  unfold process_active_account at h
  rw [hal] at h
  cases b with
  | false =>
    dsimp only at h
    rcases haltr h with rfl | rfl <;> simp [actionEmail, isEmptyRes]
  | true =>
    dsimp only at h
    rw [List.mem_append] at h
    rcases h with h | h
    · rcases haltr h with rfl | rfl <;> simp [actionEmail, isEmptyRes]
    · rcases hp : env.panel_server_id a.email with _ | sid <;> rw [hp] at h
      · exact absurd h (List.not_mem_nil act)
      · by_cases hs : sid = "" <;> simp only [hs] at h
        · simp at h
        · rw [if_neg (by simp [hs])] at h
          simp only [List.mem_cons, List.not_mem_nil, or_false] at h
          rcases h with rfl | rfl <;> simp [actionEmail, isEmptyRes]

theorem buy_free_server_trace (env : Env) (e : String) :
    ∀ act ∈ (buy_free_server env e).2,
      act = Act.addToCart e ∨ act = Act.checkout e ∨ act = Act.acceptGcu e := by
  intro act h
  simp only [buy_free_server] at h
  split at h <;> [split at h; skip] <;> simp_all
  tauto

theorem buy_free_server_addToCart (env : Env) (e : String) :
    Act.addToCart e ∈ (buy_free_server env e).2 := by
  simp only [buy_free_server]
  split <;> [split; skip] <;> simp

theorem process_target_account_trace (cfg : Config) (env : Env) (a : Account)
    (pw : String) :
    ∀ act ∈ (process_target_account cfg env a pw).2,
      actionEmail act = some a.email ∧ isEmptyRes act = false := by
  intro act h
  rcases hal : account_login env a with ⟨b0, tr0⟩
  have haltr := account_login_trace env a act
  rw [hal] at haltr
  have hbuytr := buy_free_server_trace env a.email act
  have hlogin : act ∈ tr0 →
      actionEmail act = some a.email ∧ isEmptyRes act = false := by
    intro hm
    rcases haltr hm with rfl | rfl <;> simp [actionEmail, isEmptyRes]
  have hbuy : act ∈ (buy_free_server env a.email).2 →
      actionEmail act = some a.email ∧ isEmptyRes act = false := by
    intro hm
    rcases hbuytr hm with rfl | rfl | rfl <;> simp [actionEmail, isEmptyRes]
  unfold process_target_account at h
  rw [hal] at h
  cases b0 with
  | false => exact hlogin h
  | true =>
    dsimp only at h
    rcases hb : buy_free_server env a.email with ⟨b1, trB⟩
    rw [hb] at h
    rw [hb] at hbuy
    cases b1 with
    | false =>
      dsimp only at h
      rw [List.mem_append] at h
      rcases h with h | h
      · exact hlogin h
      · exact hbuy h
    | true =>
      dsimp only at h
      rcases hp : env.panel_server_id a.email with _ | sid <;> rw [hp] at h
      · dsimp only at h
        rw [List.mem_append] at h
        rcases h with h | h
        · exact hlogin h
        · exact hbuy h
      · dsimp only at h
        split at h
        · rw [List.mem_append] at h
          rcases h with h | h
          · exact hlogin h
          · exact hbuy h
        · split at h
          · simp only [List.append_assoc, List.mem_append, List.mem_cons,
              List.not_mem_nil, or_false] at h
            rcases h with h | h | rfl | rfl
            · exact hlogin h
            · exact hbuy h
            · simp [actionEmail, isEmptyRes]
            · simp [actionEmail, isEmptyRes]
          · simp only [List.append_assoc, List.mem_append, List.mem_cons,
              List.not_mem_nil, or_false] at h
            rcases h with h | h | rfl | rfl | rfl
            · exact hlogin h
            · exact hbuy h
            · simp [actionEmail, isEmptyRes]
            · simp [actionEmail, isEmptyRes]
            · simp [actionEmail, isEmptyRes]

theorem transfer_world_data_none (env : Env) (t : FtpCreds) :
    transfer_world_data env none t = (true, []) := rfl

theorem transfer_world_data_trace (env : Env) (s : Option FtpCreds) (t : FtpCreds) :
    ∀ act ∈ (transfer_world_data env s t).2, isLftp act = true := by
  intro act h
  unfold transfer_world_data at h
  rcases s with _ | src <;> dsimp only at h
  · exact absurd h (List.not_mem_nil act)
  · rcases hh : src.host with _ | hst <;> rw [hh] at h <;> dsimp only at h
    · exact absurd h (List.not_mem_nil act)
    · split at h
      · exact absurd h (List.not_mem_nil act)
      · split at h
        · simp only [List.mem_cons, List.not_mem_nil, or_false] at h
          subst h; rfl
        · split at h <;>
          · simp only [List.mem_cons, List.not_mem_nil, or_false] at h
            rcases h with rfl | rfl <;> rfl

theorem finalize_server_trace (env : Env) (cs : List (String × String)) (sid : String) :
    ∀ act ∈ finalize_server env cs sid, act = Act.startServer sid := by
  intro act h
  simp only [finalize_server] at h
  split at h <;> simp_all

theorem update_state_trace (env : Env) (st : RotState) (ti : Option Int) :
    ∀ act ∈ (update_state env st ti).2, act = Act.gistPatch := by
  intro act h
  unfold update_state at h
  rcases ti with _ | i <;> dsimp only at h
  · split at h <;> simp_all
  · split at h
    · split at h <;> simp_all
    · exact absurd h (List.not_mem_nil act)

theorem update_state_ok (env : Env) (st : RotState) (i : Int)
    (hv : validate_state_before_save st i = true) (hp : env.patch_ok = true) :
    update_state env st (some i) = (.ok (), [Act.gistPatch]) := by
  unfold update_state
  dsimp only
  rw [hv, hp]
  simp

/-! ## Inversion lemmas: what a successful step implies -/

/-- Everything a successful pass of the validation block guarantees
about the harvested record. -/
theorem harvest_checks_ok (env : Env) (a : Account) (pw sid : String)
    (tres : TargetResult) (h : harvest_checks env a pw sid = .ok tres) :
    tres.server_id = sid ∧
    tres.ftp_host = env.ftp_host_scraped a.email ∧
    tres.ftp_user = "user_" ++ toString env.now ∧
    tres.ftp_password = pw ∧
    pyIsDigit tres.server_id = true ∧
    tres.ftp_host ≠ "" ∧ 5 ≤ tres.ftp_host.length ∧
    tres.ftp_user ≠ "" ∧ 3 ≤ tres.ftp_user.length ∧
    dictGet tres.cookies "BOXTOPLAY_SESSION" "" ≠ "" ∧
    validate_server_info tres.server_id tres.ftp_host tres.ftp_user = true := by
  unfold harvest_checks at h
  dsimp only at h
  repeat' split at h
  any_goals exact Except.noConfusion h
  all_goals
    simp only [Except.ok.injEq] at h
  all_goals
    subst h
  all_goals
    refine ⟨rfl, rfl, rfl, rfl, by simp_all, by simp_all, by simp_all,
      by simp_all, by simp_all, by simp_all, by simp_all⟩

/-- Everything a successful `process_target_account` guarantees: the
logins and the purchase went through, the polled id is the one in the
record, and the harvested record passed the validation block. -/
theorem process_target_account_ok (cfg : Config) (env : Env) (a : Account)
    (pw : String) (tres : TargetResult)
    (h : (process_target_account cfg env a pw).1 = .ok tres) :
    (account_login env a).1 = true ∧
    (buy_free_server env a.email).1 = true ∧
    env.panel_server_id a.email = some tres.server_id ∧
    env.ftp_setup_ok a.email = true ∧
    harvest_checks env a pw tres.server_id = .ok tres := by
  rcases hal : account_login env a with ⟨b0, tr0⟩
  unfold process_target_account at h
  rw [hal] at h
  cases b0 with
  | false => exact absurd h (by simp)
  | true =>
    dsimp only at h
    rcases hb : buy_free_server env a.email with ⟨b1, trB⟩
    rw [hb] at h
    cases b1 with
    | false => exact absurd h (by simp)
    | true =>
      dsimp only at h
      rcases hp : env.panel_server_id a.email with _ | sid <;> rw [hp] at h
      · exact absurd h (by simp)
      · dsimp only at h
        split at h
        · exact absurd h (by simp)
        · split at h
          · exact absurd h (by simp)
          · dsimp only at h
            have hsid : tres.server_id = sid :=
              (harvest_checks_ok env a pw sid tres h).1
            rw [hsid]
            refine ⟨rfl, rfl, rfl, by simp_all, h⟩

theorem update_state_ok_inv (env : Env) (st : RotState) (i : Int) (u : Unit)
    (tr : List Act) (h : update_state env st (some i) = (.ok u, tr)) :
    validate_state_before_save st i = true := by
  unfold update_state at h
  dsimp only at h
  split at h
  · assumption
  · exact absurd h (by simp)

theorem runRotation_pta_error (cfg : Config) (env : Env) (st : RotState)
    (a t : Account) (next : Int) (e : Err) (tr2 : List Act)
    (h : process_target_account cfg env t (mainPw cfg st) = (.error e, tr2)) :
    runRotation cfg env st a t next =
      ⟨1, none,
        (if truthyOptStr a.ftp_host then process_active_account cfg env a
         else (none, [])).2 ++ tr2⟩ := by
  unfold runRotation
  dsimp only
  rw [h]

theorem runRotation_success (cfg : Config) (env : Env) (st : RotState)
    (a t : Account) (next : Int) (tres : TargetResult) (tr2 : List Act)
    (hpta : process_target_account cfg env t (mainPw cfg st) = (.ok tres, tr2))
    (hsid : tres.server_id ≠ "") (hhost : tres.ftp_host ≠ "")
    (huser : tres.ftp_user ≠ "")
    (hcook : dictGet tres.cookies "BOXTOPLAY_SESSION" "" ≠ "")
    (hval : validate_state_before_save (commitState st next tres) next = true)
    (hp : env.patch_ok = true) :
    runRotation cfg env st a t next =
      ⟨0, some (commitState st next tres),
        (if truthyOptStr a.ftp_host then process_active_account cfg env a
         else (none, [])).2 ++ tr2 ++
        (transfer_world_data env
          (if truthyOptStr a.ftp_host then process_active_account cfg env a
           else (none, [])).1
          ⟨some tres.ftp_host, some tres.ftp_user, mainPw cfg st⟩).2 ++
        finalize_server env tres.cookies tres.server_id ++ [Act.gistPatch]⟩ := by
  have hcond : (tres.server_id == "" || tres.ftp_host == "" || tres.ftp_user == ""
      || (dictGet tres.cookies "BOXTOPLAY_SESSION" "" == "")) = false := by
    simp [hsid, hhost, huser, hcook]
  unfold runRotation
  dsimp only
  rw [hpta]
  dsimp only
  simp only [hcond, Bool.false_eq_true, if_false]
  rw [update_state_ok env _ next hval hp]

/-- A state committed by `main` always clears the document-level gate:
the flipped index is 0 or 1, `current_server_id` is the validated digit
string, and the overwritten target slot carries exactly the harvested
fields. -/
theorem commit_validate (st : RotState) (x y : Account) (tres : TargetResult)
    (hacc : st.accounts = [x, y])
    (hdig : pyIsDigit tres.server_id = true)
    (hhost : tres.ftp_host ≠ "") (huser : tres.ftp_user ≠ "")
    (hcook : dictGet tres.cookies "BOXTOPLAY_SESSION" "" ≠ "")
    (next : Int) (hn : next = 0 ∨ next = 1) :
    validate_state_before_save (commitState st next tres) next = true := by
  have hsid : tres.server_id ≠ "" := by
    intro hs
    rw [hs] at hdig
    simp [pyIsDigit] at hdig
  have hcempty : tres.cookies.isEmpty = false := by
    cases htc : tres.cookies with
    | nil =>
      rw [htc] at hcook
      simp [dictGet] at hcook
    | cons p rest => rfl
  rcases hn with rfl | rfl <;>
    simp [validate_state_before_save, vsbs_errors, commitState, hacc,
      listModify_pair_zero, listModify_pair_one, pyGet_pair_zero, pyGet_pair_one,
      vsbs_target_errors, pvalTruthy, truthyOptPVal, truthyOptStr, pyStr,
      overwriteSlot, hdig, hsid, hhost, huser, hcook, hcempty]

/-- Inversion of a run that wrote a document: only the success branch of
`runMain` writes, so the write is the committed flip of the loaded
state, made from a target record that passed `process_target_account`,
and it cleared the document gate; the exit code is 0. -/
theorem runMain_committed (cfg : Config) (env : Env) (st2 : RotState)
    (h : (runMain cfg env).written = some st2) :
    (runMain cfg env).exitCode = 0 ∧
    ∃ st tacc tres,
      env.state_read = .ok st ∧
      pyGet st.accounts
        (if st.active_account_index.getD 0 = 0 then 1 else 0) = some tacc ∧
      (process_target_account cfg env tacc (mainPw cfg st)).1 = .ok tres ∧
      st2 = commitState st
        (if st.active_account_index.getD 0 = 0 then 1 else 0) tres ∧
      validate_state_before_save st2
        (if st.active_account_index.getD 0 = 0 then 1 else 0) = true := by
  rcases hE : runMain cfg env with ⟨ec, w, tr⟩
  rw [hE] at h
  dsimp only at h ⊢
  subst h
  unfold runMain at hE
  split at hE
  · simp at hE
  next st heq1 =>
    unfold runAfterLoad at hE
    dsimp only at hE
    split at hE
    next aacc tacc heqA heqT =>
      unfold runRotation at hE
      dsimp only at hE
      split at hE
      next e tr2 heq3 => simp at hE
      next tres tr2 heq3 =>
        split at hE
        · simp at hE
        next hcnd =>
          split at hE
          next e tr5 heq4 => simp at hE
          next u tr5 heq4 =>
            simp only [RunOutcome.mk.injEq, Option.some.injEq] at hE
            obtain ⟨hec, hw, htr⟩ := hE
            subst hw
            exact ⟨hec.symm ▸ rfl, st, tacc, tres, heq1, heqT,
              by rw [heq3], rfl, update_state_ok_inv env _ _ u tr5 heq4⟩
    next hno =>
      simp at hE

/-- A document that cleared the gate has exactly two accounts
(worker.py 216-218). -/
theorem validate_true_length (st : RotState) (ti : Int)
    (h : validate_state_before_save st ti = true) : st.accounts.length = 2 := by
  unfold validate_state_before_save vsbs_errors at h
  split at h
  · simp at h
  next hlen => omega

/-- A digit string is non-empty. -/
theorem pyIsDigit_ne_empty {s : String} (h : pyIsDigit s = true) : s ≠ "" := by
  intro hs
  rw [hs] at h
  simp [pyIsDigit] at h

/-! ## Claim theorems -/

/-- C4: Every committed RotationState satisfies the document
invariants: exactly two slots exist, activeIndex is 0 or 1,
current_server_id is a string of ASCII digits (never numeric), and
current_server_id equals slots[activeIndex].server_id whenever both are
non-null. -/
theorem C4_committed_invariants (cfg : Config) (env : Env) (st2 : RotState)
    (h : (runMain cfg env).written = some st2) :
    st2.accounts.length = 2 ∧
    (st2.active_account_index = some 0 ∨ st2.active_account_index = some 1) ∧
    (∃ s, st2.current_server_id = some (PVal.vstr s) ∧ pyIsDigit s = true) ∧
    (∀ i t v w, st2.active_account_index = some i →
       pyGet st2.accounts i = some t → st2.current_server_id = some v →
       t.server_id = some w → pvalTruthy v = true → pvalTruthy w = true →
       pyStr v = pyStr w) := by
  obtain ⟨hec, st, tacc, tres, hread, hgt, hpta, hcommit, hval⟩ :=
    runMain_committed cfg env st2 h
  obtain ⟨hlog, hbuy, hpanel, hsetup, hhc⟩ :=
    process_target_account_ok cfg env tacc _ tres hpta
  obtain ⟨hs1, hh0, hu0, hpw, hdig, hh1, hh2, hu1, hu2, hck, hvsi⟩ :=
    harvest_checks_ok env tacc _ tres.server_id tres hhc
  have hn01 : (if st.active_account_index.getD 0 = 0 then (1:Int) else 0) = 0 ∨
      (if st.active_account_index.getD 0 = 0 then (1:Int) else 0) = 1 := by
    split <;> simp
  have hlen2 : st2.accounts.length = 2 := validate_true_length st2 _ hval
  have hact : st2.active_account_index =
      some (if st.active_account_index.getD 0 = 0 then (1:Int) else 0) := by
    rw [hcommit]; rfl
  have hcur : st2.current_server_id = some (PVal.vstr tres.server_id) := by
    rw [hcommit]; rfl
  have hacc2 : st2.accounts = listModify st.accounts
      (if st.active_account_index.getD 0 = 0 then (1:Int) else 0).toNat
      (overwriteSlot tres) := by
    rw [hcommit]; rfl
  have haccl : st.accounts.length = 2 := by
    rw [hacc2, listModify_length] at hlen2
    exact hlen2
  obtain ⟨x, y, hxy⟩ := List.length_eq_two.mp haccl
  refine ⟨hlen2, ?_, ⟨tres.server_id, hcur, hdig⟩, ?_⟩
  · rcases hn01 with hn | hn <;> rw [hact, hn] <;> simp
  · intro i t v w hai hgt2 hcv htw htv htw2
    rw [hact] at hai
    injection hai with hai
    subst hai
    rw [hcur] at hcv
    injection hcv with hcv
    subst hcv
    rcases hn01 with hn | hn <;> rw [hn] at hgt2 hacc2 <;> rw [hxy] at hacc2
    · rw [show ((0:Int).toNat) = 0 from rfl, listModify_pair_zero] at hacc2
      rw [hacc2, pyGet_pair_zero] at hgt2
      injection hgt2 with hgt2
      subst hgt2
      simp only [overwriteSlot] at htw
      injection htw with htw
      subst htw
      rfl
    · rw [show ((1:Int).toNat) = 1 from rfl, listModify_pair_one] at hacc2
      rw [hacc2, pyGet_pair_one] at hgt2
      injection hgt2 with hgt2
      subst hgt2
      simp only [overwriteSlot] at htw
      injection htw with htw
      subst htw
      rfl

/-- C4 witness: the all-success environment commits `stGood`, and the
theorem's invariants hold of it. -/
theorem C4_committed_invariants_witness :
    (runMain cfg0 envGood).written = some stGood ∧
    (stGood.accounts.length = 2 ∧
     (stGood.active_account_index = some 0 ∨ stGood.active_account_index = some 1) ∧
     (∃ s, stGood.current_server_id = some (PVal.vstr s) ∧ pyIsDigit s = true) ∧
     (∀ i t v w, stGood.active_account_index = some i →
        pyGet stGood.accounts i = some t → stGood.current_server_id = some v →
        t.server_id = some w → pvalTruthy v = true → pvalTruthy w = true →
        pyStr v = pyStr w)) :=
  ⟨by decide, C4_committed_invariants cfg0 envGood stGood (by decide)⟩

/-- C3: For any initial state with activeIndex=0, a fully successful
run commits a state with activeIndex=1 in which slots[1] has all four
of resourceId, transferHost, transferUser, and sessionToken populated,
and slots[0] is unchanged (no field of the outgoing slot record is
rewritten by the commit). -/
theorem C3_slot_flip (cfg : Config) (env : Env) (st st2 : RotState)
    (a0 a1 : Account)
    (hread : env.state_read = .ok st)
    (hacc : st.accounts = [a0, a1])
    (hidx : st.active_account_index = some 0)
    (h : (runMain cfg env).written = some st2) :
    st2.active_account_index = some 1 ∧
    (∃ t, pyGet st2.accounts 1 = some t ∧
      (∃ s, t.server_id = some (PVal.vstr s) ∧ s ≠ "") ∧
      (∃ hh, t.ftp_host = some hh ∧ hh ≠ "") ∧
      (∃ u, t.ftp_user = some u ∧ u ≠ "") ∧
      dictGet t.cookies "BOXTOPLAY_SESSION" "" ≠ "") ∧
    pyGet st2.accounts 0 = some a0 := by
  obtain ⟨hec, st', tacc, tres, hread', hgt, hpta, hcommit, hval⟩ :=
    runMain_committed cfg env st2 h
  rw [hread] at hread'
  injection hread' with hread'
  subst hread'
  have hnext : (if st.active_account_index.getD 0 = 0 then (1:Int) else 0) = 1 := by
    rw [hidx]
    rfl
  rw [hnext] at hgt hcommit hval
  obtain ⟨hlog, hbuy, hpanel, hsetup, hhc⟩ :=
    process_target_account_ok cfg env tacc _ tres hpta
  obtain ⟨hs1, hh0, hu0, hpw, hdig, hh1, hh2, hu1, hu2, hck, hvsi⟩ :=
    harvest_checks_ok env tacc _ tres.server_id tres hhc
  have hacc2 : st2.accounts = [a0, overwriteSlot tres a1] := by
    rw [hcommit]
    show listModify st.accounts ((1:Int)).toNat (overwriteSlot tres) = _
    rw [hacc]
    rfl
  refine ⟨by rw [hcommit]; rfl,
    ⟨overwriteSlot tres a1, by rw [hacc2]; rfl,
      ⟨tres.server_id, rfl, pyIsDigit_ne_empty hdig⟩,
      ⟨tres.ftp_host, rfl, hh1⟩,
      ⟨tres.ftp_user, rfl, hu1⟩,
      hck⟩,
    by rw [hacc2]; rfl⟩

/-- C3 witness: the sample document with slot 0 active, run through the
all-success environment, commits `stGood` and the flip facts hold. -/
theorem C3_slot_flip_witness :
    envGood.state_read = .ok st0 ∧ st0.accounts = [acct0, acct1] ∧
    st0.active_account_index = some 0 ∧
    (runMain cfg0 envGood).written = some stGood ∧
    (stGood.active_account_index = some 1 ∧
     (∃ t, pyGet stGood.accounts 1 = some t ∧
       (∃ s, t.server_id = some (PVal.vstr s) ∧ s ≠ "") ∧
       (∃ hh, t.ftp_host = some hh ∧ hh ≠ "") ∧
       (∃ u, t.ftp_user = some u ∧ u ≠ "") ∧
       dictGet t.cookies "BOXTOPLAY_SESSION" "" ≠ "") ∧
     pyGet stGood.accounts 0 = some acct0) :=
  ⟨rfl, rfl, rfl, by decide,
   C3_slot_flip cfg0 envGood st0 stGood acct0 acct1 rfl rfl rfl (by decide)⟩

/-- When the target-account step raises, the run exits 1 with nothing
written; the trace is the decommission attempt plus the target step's
partial trace. -/
theorem runMain_target_failed (cfg : Config) (env : Env) (st : RotState)
    (a0 a1 : Account) (e : Err) (tr2 : List Act)
    (hread : env.state_read = .ok st)
    (hacc : st.accounts = [a0, a1])
    (hidx : st.active_account_index = some 0)
    (hpta : process_target_account cfg env a1 (mainPw cfg st) = (.error e, tr2)) :
    runMain cfg env =
      ⟨1, none,
        (if truthyOptStr a0.ftp_host then process_active_account cfg env a0
         else (none, [])).2 ++ tr2⟩ := by
  unfold runMain
  rw [hread]
  unfold runAfterLoad
  dsimp only
  rw [hidx, hacc]
  exact runRotation_pta_error cfg env st a0 a1 1 e tr2 hpta

/-- The mirror of `runMain_target_failed` for a document with slot 1
active (target = slot 0). -/
theorem runMain_target_failed_idx1 (cfg : Config) (env : Env) (st : RotState)
    (a0 a1 : Account) (e : Err) (tr2 : List Act)
    (hread : env.state_read = .ok st)
    (hacc : st.accounts = [a0, a1])
    (hidx : st.active_account_index = some 1)
    (hpta : process_target_account cfg env a0 (mainPw cfg st) = (.error e, tr2)) :
    runMain cfg env =
      ⟨1, none,
        (if truthyOptStr a1.ftp_host then process_active_account cfg env a1
         else (none, [])).2 ++ tr2⟩ := by
  unfold runMain
  rw [hread]
  unfold runAfterLoad
  dsimp only
  rw [hidx, hacc]
  exact runRotation_pta_error cfg env st a1 a0 0 e tr2 hpta

/-- No FATAL cause of C2 lets the target-account step return a
harvested record. -/
theorem target_cause_not_ok (cfg : Config) (env : Env) (pw : String)
    (tacc : Account) (hcase : targetFatalCause env tacc) :
    ∀ tres, (process_target_account cfg env tacc pw).1 ≠ .ok tres := by
  intro tres hok
  obtain ⟨hlog, hbuy, hpanel, hsetup, hhc⟩ :=
    process_target_account_ok cfg env tacc pw tres hok
  obtain ⟨hs1, hh0, hu0, hpw, hdig, hh1, hh2, hu1, hu2, hck, hvsi⟩ :=
    harvest_checks_ok env tacc pw tres.server_id tres hhc
  rcases hcase with hc | hc | hc | hc | hc
  · rw [hlog] at hc
    exact Bool.noConfusion hc
  · rw [hbuy] at hc
    exact Bool.noConfusion hc
  · rw [hpanel] at hc
    exact Option.noConfusion hc
  · rw [hpanel] at hc
    injection hc with hc
    exact pyIsDigit_ne_empty hdig hc
  · have := hc tres.server_id hpanel
    rw [← hh0, ← hu0, hvsi] at this
    exact Bool.noConfusion this

/-- The trace of a run that died in the target step holds no gist
PATCH: the decommission and target parts only contain session-bound
actions. -/
theorem no_patch_in_failed_trace (cfg : Config) (env : Env)
    (aAcc tAcc : Account) (pw : String) (tr2 : List Act)
    (htr2 : tr2 = (process_target_account cfg env tAcc pw).2) :
    Act.gistPatch ∉
      (if truthyOptStr aAcc.ftp_host then process_active_account cfg env aAcc
       else (none, [])).2 ++ tr2 := by
  intro hmem
  rw [List.mem_append] at hmem
  rcases hmem with hm | hm
  · by_cases hc : truthyOptStr aAcc.ftp_host = true
    · rw [if_pos hc] at hm
      have := (process_active_account_trace cfg env aAcc _ hm).1
      simp [actionEmail] at this
    · rw [if_neg hc] at hm
      exact List.not_mem_nil _ hm
  · rw [htr2] at hm
    have := (process_target_account_trace cfg env tAcc _ _ hm).1
    simp [actionEmail] at this

/-- C2: For every run that ends in a FATAL abort (target-slot
authentication failure, refused/failed allocation, resource-polling
exhaustion, validation failure, or state-store read failure), no write
of the state document is performed — the gist PATCH never happens, so
the persisted RotationState after the run is the one from before the
run — and the process exits with a non-zero status. -/
theorem C2_fatal_no_write (cfg : Config) (env : Env)
    (hfatal :
      env.state_read = .error () ∨
      (∃ st a0 a1, env.state_read = .ok st ∧ st.accounts = [a0, a1] ∧
        st.active_account_index = some 0 ∧ targetFatalCause env a1) ∨
      (∃ st a0 a1, env.state_read = .ok st ∧ st.accounts = [a0, a1] ∧
        st.active_account_index = some 1 ∧ targetFatalCause env a0)) :
    (runMain cfg env).exitCode = 1 ∧
    (runMain cfg env).written = none ∧
    Act.gistPatch ∉ (runMain cfg env).trace := by
  rcases hfatal with hread | ⟨st, a0, a1, hread, hacc, hidx, hcase⟩ |
    ⟨st, a0, a1, hread, hacc, hidx, hcase⟩
  · have hmain : runMain cfg env = ⟨1, none, []⟩ := by
      unfold runMain
      rw [hread]
    rw [hmain]
    simp
  · rcases hpta : process_target_account cfg env a1 (mainPw cfg st) with ⟨res, tr2⟩
    cases res with
    | ok tres =>
      exact absurd (by rw [hpta])
        (target_cause_not_ok cfg env (mainPw cfg st) a1 hcase tres)
    | error e =>
      have hmain := runMain_target_failed cfg env st a0 a1 e tr2 hread hacc hidx hpta
      rw [hmain]
      exact ⟨rfl, rfl,
        no_patch_in_failed_trace cfg env a0 a1 (mainPw cfg st) tr2 (by rw [hpta])⟩
  · rcases hpta : process_target_account cfg env a0 (mainPw cfg st) with ⟨res, tr2⟩
    cases res with
    | ok tres =>
      exact absurd (by rw [hpta])
        (target_cause_not_ok cfg env (mainPw cfg st) a0 hcase tres)
    | error e =>
      have hmain := runMain_target_failed_idx1 cfg env st a0 a1 e tr2 hread hacc hidx hpta
      rw [hmain]
      exact ⟨rfl, rfl,
        no_patch_in_failed_trace cfg env a1 a0 (mainPw cfg st) tr2 (by rw [hpta])⟩

/-- C2 witness: an environment where the free-offering checkout click
fails on the target account aborts with exit 1 and no gist PATCH. -/
theorem C2_fatal_no_write_witness :
    (envBuyFail.state_read = .error () ∨
     (∃ st a0 a1, envBuyFail.state_read = .ok st ∧ st.accounts = [a0, a1] ∧
       st.active_account_index = some 0 ∧ targetFatalCause envBuyFail a1) ∨
     (∃ st a0 a1, envBuyFail.state_read = .ok st ∧ st.accounts = [a0, a1] ∧
       st.active_account_index = some 1 ∧ targetFatalCause envBuyFail a0)) ∧
    ((runMain cfg0 envBuyFail).exitCode = 1 ∧
     (runMain cfg0 envBuyFail).written = none ∧
     Act.gistPatch ∉ (runMain cfg0 envBuyFail).trace) :=
  ⟨Or.inr (Or.inl ⟨st0, acct0, acct1, rfl, rfl, rfl, Or.inr (Or.inl (by decide))⟩),
   C2_fatal_no_write cfg0 envBuyFail
     (Or.inr (Or.inl ⟨st0, acct0, acct1, rfl, rfl, rfl, Or.inr (Or.inl (by decide))⟩))⟩

/-- When the login succeeded and the purchase failed, the target step
raises the purchase error with the cart action already performed. -/
theorem pta_buyfail (cfg : Config) (env : Env) (a : Account) (pw : String)
    (hlog : (account_login env a).1 = true)
    (hbuy : (buy_free_server env a.email).1 = false) :
    process_target_account cfg env a pw =
      (.error .buyFail,
        (account_login env a).2 ++ (buy_free_server env a.email).2) := by
  unfold process_target_account
  rcases hal : account_login env a with ⟨b0, tr0⟩
  rw [hal] at hlog
  dsimp only at hlog
  subst hlog
  dsimp only
  rcases hb : buy_free_server env a.email with ⟨b1, trB⟩
  rw [hb] at hbuy
  dsimp only at hbuy
  subst hbuy
  rfl

/-- C1: `transfer_world_data` reports the failed push by returning
`False`, exactly as its contract says — but `main` discards that value
(worker.py 1135), so the run still starts the new server, still PATCHes
the flipped state and exits 0 instead of aborting before the Start and
Commit steps. -/
theorem C1_push_failure_still_commits :
    (transfer_world_data envPushFail
      (some { host := some "ftp1.boxtoplay.com", user := some "user_1111",
              password := "ftppass" })
      { host := some "ftp2.boxtoplay.com", user := some "user_1700000000",
        password := "sharedpass" }).1 = false ∧
    Act.lftpUpload "ftp2.boxtoplay.com" ∈ (runMain cfg0 envPushFail).trace ∧
    (runMain cfg0 envPushFail).exitCode = 0 ∧
    (runMain cfg0 envPushFail).written = some stGood ∧
    Act.startServer "445566" ∈ (runMain cfg0 envPushFail).trace ∧
    Act.gistPatch ∈ (runMain cfg0 envPushFail).trace := by
  decide

/-- C5 counterexample: with the offering priced at 499 cents, the run
neither detects the price nor aborts: every trace action is performed
as usual, the purchase goes through, the state is committed and the
exit code is 0 — and no reservation-emptying action ever occurs. -/
theorem C5_priced_offering_still_bought :
    envPriced.offerPriceCents = 499 ∧
    (runMain cfg0 envPriced).exitCode = 0 ∧
    (runMain cfg0 envPriced).written = some stGood ∧
    (∀ act ∈ (runMain cfg0 envPriced).trace, isEmptyRes act = false) := by
  decide

/-- C5 amended: when the buy flow fails (the checkout or terms click),
the run aborts FATAL with exit code 1 and no state write; the offering
stays in the cart (`addToCart` was performed) and the worker never
empties the reservation. -/
theorem C5_refused_allocation_aborts (cfg : Config) (env : Env)
    (st : RotState) (a0 a1 : Account)
    (hread : env.state_read = .ok st)
    (hacc : st.accounts = [a0, a1])
    (hidx : st.active_account_index = some 0)
    (hlog : (account_login env a1).1 = true)
    (hbuy : (buy_free_server env a1.email).1 = false) :
    (runMain cfg env).exitCode = 1 ∧
    (runMain cfg env).written = none ∧
    Act.addToCart a1.email ∈ (runMain cfg env).trace ∧
    (∀ act ∈ (runMain cfg env).trace, isEmptyRes act = false) := by
  have hpta := pta_buyfail cfg env a1 (mainPw cfg st) hlog hbuy
  have hmain := runMain_target_failed cfg env st a0 a1 .buyFail _ hread hacc hidx hpta
  rw [hmain]
  refine ⟨rfl, rfl, ?_, ?_⟩
  · dsimp only
    rw [List.mem_append]
    right
    rw [List.mem_append]
    right
    exact buy_free_server_addToCart env a1.email
  · intro act hact
    dsimp only at hact
    rw [List.mem_append] at hact
    rcases hact with hm | hm
    · by_cases hc : truthyOptStr a0.ftp_host = true
      · rw [if_pos hc] at hm
        exact (process_active_account_trace cfg env a0 act hm).2
      · rw [if_neg hc] at hm
        exact absurd hm (List.not_mem_nil act)
    · rw [List.mem_append] at hm
      rcases hm with hm | hm
      · rcases account_login_trace env a1 act hm with rfl | rfl <;> rfl
      · rcases buy_free_server_trace env a1.email act hm with rfl | rfl | rfl <;> rfl

/-- C5 amended witness: the checkout-failure environment instantiates
the amended claim. -/
theorem C5_refused_allocation_aborts_witness :
    envBuyFail.state_read = .ok st0 ∧ st0.accounts = [acct0, acct1] ∧
    st0.active_account_index = some 0 ∧
    (account_login envBuyFail acct1).1 = true ∧
    (buy_free_server envBuyFail acct1.email).1 = false ∧
    ((runMain cfg0 envBuyFail).exitCode = 1 ∧
     (runMain cfg0 envBuyFail).written = none ∧
     Act.addToCart acct1.email ∈ (runMain cfg0 envBuyFail).trace ∧
     (∀ act ∈ (runMain cfg0 envBuyFail).trace, isEmptyRes act = false)) :=
  ⟨rfl, rfl, rfl, by decide, by decide,
   C5_refused_allocation_aborts cfg0 envBuyFail st0 acct0 acct1 rfl rfl rfl
     (by decide) (by decide)⟩

/-- C6 counterexample: slot 0 has FTP credentials on file, yet when
both login paths against it fail, `process_active_account` returns
`None` — nothing is captured for the migration source. -/
theorem C6_auth_fail_no_capture :
    acct0.ftp_host = some "ftp1.boxtoplay.com" ∧
    acct0.ftp_user = some "user_1111" ∧
    (process_active_account cfg0 envOutgoingAuthFail acct0).1 = none := by
  decide

/-- C6 amended: the outgoing slot's on-file transfer credentials are
captured whenever authentication against it succeeds — regardless of
whether a server was found, cleared or stopped — with the password
taken from the environment override or the on-file value; when both
login paths fail, nothing is captured. -/
theorem C6_capture_on_auth_success (cfg : Config) (env : Env) (a : Account)
    (hlog : (account_login env a).1 = true) :
    (process_active_account cfg env a).1 =
      some { host := a.ftp_host, user := a.ftp_user,
             password := if cfg.FTP_PASSWORD != "" then cfg.FTP_PASSWORD
                         else a.ftp_password.getD "" } := by
  unfold process_active_account
  rcases hal : account_login env a with ⟨b, tr⟩
  rw [hal] at hlog
  dsimp only at hlog
  subst hlog
  rfl

/-- C6 amended witness: in the all-success environment the captured
source credentials are exactly slot 0's on-file FTP data. -/
theorem C6_capture_on_auth_success_witness :
    (account_login envGood acct0).1 = true ∧
    (process_active_account cfg0 envGood acct0).1 =
      some { host := acct0.ftp_host, user := acct0.ftp_user,
             password := if cfg0.FTP_PASSWORD != "" then cfg0.FTP_PASSWORD
                         else acct0.ftp_password.getD "" } :=
  ⟨by decide, C6_capture_on_auth_success cfg0 envGood acct0 (by decide)⟩

/-- C9 counterexample: for a document whose target slot has
resourceId="", transferHost="", transferUser="ab" and a valid session
cookie, the document gate reports exactly two distinct failures — not
at least three — before rejecting: the transferUser length rule is not
part of the document-level checks. -/
theorem C9_document_gate_two_failures :
    (pyGet stBadFields.accounts 1 = some acctBadFields ∧
     acctBadFields.server_id = some (PVal.vstr "") ∧
     acctBadFields.ftp_host = some "" ∧
     acctBadFields.ftp_user = some "ab") ∧
    vsbs_errors stBadFields 1 =
      ["compte cible server_id manquant", "compte cible ftp_host manquant"] ∧
    ¬3 ≤ (vsbs_errors stBadFields 1).length ∧
    validate_state_before_save stBadFields 1 = false := by
  decide

/-- C9 amended: both validation layers aggregate their failures instead
of short-circuiting; on the scenario record the document gate reports
its two (distinct) presence failures and rejects, while the field-level
`validate_server_info` — which owns the user-length rule — reports
three distinct failures on ("", "", "ab") and rejects. -/
theorem C9_aggregation :
    (vsbs_errors stBadFields 1).length = 2 ∧
    (vsbs_errors stBadFields 1).Nodup ∧
    validate_state_before_save stBadFields 1 = false ∧
    validate_server_info_errors "" "" "ab" =
      ["server_id est vide ou None", "ftp_host est vide ou None",
       "ftp_user est trop court"] ∧
    (validate_server_info_errors "" "" "ab").Nodup ∧
    validate_server_info "" "" "ab" = false := by
  decide

/-- An `lftp` invocation is not tied to a provider session. -/
theorem isLftp_email_none {act : Act} (h : isLftp act = true) :
    actionEmail act = none := by
  cases act <;> simp_all [isLftp, actionEmail]

/-- The login attempts of the decommission step are part of its trace. -/
theorem account_login_mem_paa (cfg : Config) (env : Env) (a : Account) :
    ∀ act ∈ (account_login env a).2, act ∈ (process_active_account cfg env a).2 := by
  intro act hm
  unfold process_active_account
  rcases hal : account_login env a with ⟨b, tr⟩
  rw [hal] at hm
  cases b with
  | false => exact hm
  | true =>
    dsimp only
    exact List.mem_append.mpr (Or.inl hm)

/-- Under a well-formed slot-0-active document, the run's trace is the
decommission part followed by actions that are either in the target
account's session or sessionless (transfer, start, PATCH). -/
theorem runMain_trace_split (cfg : Config) (env : Env) (st : RotState)
    (a0 a1 : Account)
    (hread : env.state_read = .ok st)
    (hacc : st.accounts = [a0, a1])
    (hidx : st.active_account_index = some 0) :
    ∃ rest, (runMain cfg env).trace =
      (if truthyOptStr a0.ftp_host then process_active_account cfg env a0
       else (none, [])).2 ++ rest ∧
      ∀ act ∈ rest, actionEmail act = some a1.email ∨ actionEmail act = none := by
  have hmain : runMain cfg env = runRotation cfg env st a0 a1 1 := by
    unfold runMain
    rw [hread]
    unfold runAfterLoad
    dsimp only
    rw [hidx, hacc]
    exact rfl
  rw [hmain]
  unfold runRotation
  dsimp only
  rcases hpta : process_target_account cfg env a1 (mainPw cfg st) with ⟨res, tr2⟩
  have htr2 : ∀ act ∈ tr2, actionEmail act = some a1.email := by
    intro act hm
    have he : tr2 = (process_target_account cfg env a1 (mainPw cfg st)).2 := by
      rw [hpta]
    rw [he] at hm
    exact (process_target_account_trace cfg env a1 _ act hm).1
  cases res with
  | error e =>
    dsimp only
    exact ⟨tr2, rfl, fun act hm => Or.inl (htr2 act hm)⟩
  | ok tres =>
    dsimp only
    have htr3 : ∀ act ∈ (transfer_world_data env
        (if truthyOptStr a0.ftp_host then process_active_account cfg env a0
         else (none, [])).1
        ⟨some tres.ftp_host, some tres.ftp_user, mainPw cfg st⟩).2,
        actionEmail act = none := by
      intro act hm
      exact isLftp_email_none (transfer_world_data_trace env _ _ act hm)
    have htr4 : ∀ act ∈ finalize_server env tres.cookies tres.server_id,
        actionEmail act = none := by
      intro act hm
      rw [finalize_server_trace env _ _ act hm]
      rfl
    split
    · refine ⟨_, by simp only [List.append_assoc]; rfl, ?_⟩
      intro act hm
      rw [List.mem_append] at hm
      rcases hm with hm | hm
      · exact Or.inl (htr2 act hm)
      · rw [List.mem_append] at hm
        rcases hm with hm | hm
        · exact Or.inr (htr3 act hm)
        · exact Or.inr (htr4 act hm)
    · rcases hup : update_state env
          (commitState st 1 tres) (some 1) with ⟨ur, tr5⟩
      have htr5 : ∀ act ∈ tr5, actionEmail act = none := by
        intro act hm
        have he : tr5 = (update_state env (commitState st 1 tres) (some 1)).2 := by
          rw [hup]
        rw [he] at hm
        rw [update_state_trace env _ _ act hm]
        rfl
      have hmem : ∀ act, act ∈ tr2 ++
            ((transfer_world_data env
              (if truthyOptStr a0.ftp_host then process_active_account cfg env a0
               else (none, [])).1
              ⟨some tres.ftp_host, some tres.ftp_user, mainPw cfg st⟩).2 ++
             (finalize_server env tres.cookies tres.server_id ++ tr5)) →
          actionEmail act = some a1.email ∨ actionEmail act = none := by
        intro act hm
        rw [List.mem_append] at hm
        rcases hm with hm | hm
        · exact Or.inl (htr2 act hm)
        · rw [List.mem_append] at hm
          rcases hm with hm | hm
          · exact Or.inr (htr3 act hm)
          · rw [List.mem_append] at hm
            rcases hm with hm | hm
            · exact Or.inr (htr4 act hm)
            · exact Or.inr (htr5 act hm)
      cases ur with
      | error e => exact ⟨_, by simp only [List.append_assoc], hmem⟩
      | ok u => exact ⟨_, by simp only [List.append_assoc], hmem⟩

/-- A session-bound action is not an `lftp` invocation. -/
theorem emailed_isLftp_false {act : Act} {e : String}
    (h : actionEmail act = some e) : isLftp act = false := by
  cases act <;> simp_all [actionEmail, isLftp]

/-- When both login paths fail, the decommission step returns no
credentials and its trace is just the login attempts. -/
theorem paa_login_fail (cfg : Config) (env : Env) (a : Account)
    (h : (account_login env a).1 = false) :
    process_active_account cfg env a = (none, (account_login env a).2) := by
  unfold process_active_account
  rcases hal : account_login env a with ⟨b, tr⟩
  rw [hal] at h
  dsimp only at h
  subst h
  rfl

/-- C7 counterexample: slot 0's resourceId is null, yet — because its
ftp_host is populated — the run does perform calls against slot 0 (the
decommission step is driven by the ftp_host field, worker.py 1105). -/
theorem C7_null_resource_still_decommissions :
    acct0NullServer.server_id = none ∧
    acct0NullServer.ftp_host = some "ftp1.boxtoplay.com" ∧
    Act.loginCookie "compte1@example.com" ∈ (runMain cfg0 envNullServer).trace := by
  decide

/-- C7 amended: the decommission step is skipped — no action is taken
in the outgoing slot's session — exactly when the outgoing slot's
ftp_host is null or empty; when ftp_host is populated, the run performs
at least a login attempt against the outgoing slot. -/
theorem C7_skip_iff_no_ftp_host (cfg : Config) (env : Env) (st : RotState)
    (a0 a1 : Account)
    (hread : env.state_read = .ok st)
    (hacc : st.accounts = [a0, a1])
    (hidx : st.active_account_index = some 0)
    (hne : a0.email ≠ a1.email) :
    (truthyOptStr a0.ftp_host = false →
      ∀ act ∈ (runMain cfg env).trace, actionEmail act ≠ some a0.email) ∧
    (truthyOptStr a0.ftp_host = true →
      ∃ act ∈ (runMain cfg env).trace, actionEmail act = some a0.email) := by
  obtain ⟨rest, htr, hrest⟩ := runMain_trace_split cfg env st a0 a1 hread hacc hidx
  constructor
  · intro hskip act hm heq
    rw [htr, if_neg (by simp [hskip])] at hm
    rw [List.nil_append] at hm
    rcases hrest act hm with h1 | h1
    · rw [heq] at h1
      injection h1 with h1
      exact hne h1
    · rw [heq] at h1
      exact Option.noConfusion h1
  · intro hrun
    rw [htr, if_pos hrun]
    rcases account_login_mem env a0 with hm | hm
    · exact ⟨Act.loginCookie a0.email,
        List.mem_append.mpr (Or.inl (account_login_mem_paa cfg env a0 _ hm)), rfl⟩
    · exact ⟨Act.loginCreds a0.email,
        List.mem_append.mpr (Or.inl (account_login_mem_paa cfg env a0 _ hm)), rfl⟩

/-- C7 amended witness: on the sample document (whose slot 0 has an
ftp_host), the run performs a call in slot 0's session. -/
theorem C7_skip_iff_no_ftp_host_witness :
    envGood.state_read = .ok st0 ∧ st0.accounts = [acct0, acct1] ∧
    st0.active_account_index = some 0 ∧ acct0.email ≠ acct1.email ∧
    ((truthyOptStr acct0.ftp_host = false →
       ∀ act ∈ (runMain cfg0 envGood).trace, actionEmail act ≠ some acct0.email) ∧
     (truthyOptStr acct0.ftp_host = true →
       ∃ act ∈ (runMain cfg0 envGood).trace, actionEmail act = some acct0.email)) :=
  ⟨rfl, rfl, rfl, by decide,
   C7_skip_iff_no_ftp_host cfg0 envGood st0 acct0 acct1 rfl rfl rfl (by decide)⟩

/-- C8: authentication failure against the outgoing slot is non-fatal:
when both of its login paths fail but the target slot provisions
successfully, the transfer pipeline is handed `source=None`, returns
success without ever invoking the transfer tool, and the run still
commits the flipped state and exits 0. -/
theorem C8_outgoing_auth_nonfatal (cfg : Config) (env : Env) (st : RotState)
    (a0 a1 : Account) (tres : TargetResult)
    (hread : env.state_read = .ok st)
    (hacc : st.accounts = [a0, a1])
    (hidx : st.active_account_index = some 0)
    (hhost : truthyOptStr a0.ftp_host = true)
    (hfail : (account_login env a0).1 = false)
    (hpta : (process_target_account cfg env a1 (mainPw cfg st)).1 = .ok tres)
    (hp : env.patch_ok = true) :
    (∀ t, transfer_world_data env none t = (true, [])) ∧
    (runMain cfg env).exitCode = 0 ∧
    (runMain cfg env).written = some (commitState st 1 tres) ∧
    Act.gistPatch ∈ (runMain cfg env).trace ∧
    (∀ act ∈ (runMain cfg env).trace, isLftp act = false) := by
  obtain ⟨hlog1, hbuy1, hpanel, hsetup, hhc⟩ :=
    process_target_account_ok cfg env a1 _ tres hpta
  obtain ⟨hs1, hh0, hu0, hpw, hdig, hh1, hh2, hu1, hu2, hck, hvsi⟩ :=
    harvest_checks_ok env a1 _ _ tres hhc
  have hval := commit_validate st a0 a1 tres hacc hdig hh1 hu1 hck 1 (Or.inr rfl)
  rcases hpe : process_target_account cfg env a1 (mainPw cfg st) with ⟨res, tr2⟩
  have hres : res = .ok tres := by
    have := hpta
    rw [hpe] at this
    exact this
  subst hres
  have hpaa := paa_login_fail cfg env a0 hfail
  have hmain : runMain cfg env = runRotation cfg env st a0 a1 1 := by
    unfold runMain
    rw [hread]
    unfold runAfterLoad
    dsimp only
    rw [hidx, hacc]
    exact rfl
  have hrot := runRotation_success cfg env st a0 a1 1 tres tr2 hpe
    (pyIsDigit_ne_empty hdig) hh1 hu1 hck hval hp
  rw [hmain, hrot]
  rw [if_pos hhost, hpaa]
  dsimp only
  rw [transfer_world_data_none]
  refine ⟨fun t => transfer_world_data_none env t, rfl, rfl, by simp, ?_⟩
  intro act hm
  simp only [List.append_nil, List.mem_append, List.mem_singleton] at hm
  rcases hm with ((hm | hm) | hm) | hm
  · rcases account_login_trace env a0 act hm with rfl | rfl <;> rfl
  · have he : tr2 = (process_target_account cfg env a1 (mainPw cfg st)).2 := by
      rw [hpe]
    rw [he] at hm
    exact emailed_isLftp_false (process_target_account_trace cfg env a1 _ act hm).1
  · rw [finalize_server_trace env _ _ act hm]
    rfl
  · subst hm
    rfl

/-- C8 witness: outgoing logins rejected, target provisioning fine —
the run commits `stGood` with exit 0 and no `lftp` call in the trace. -/
theorem C8_outgoing_auth_nonfatal_witness :
    envOutgoingAuthFail.state_read = .ok st0 ∧
    st0.accounts = [acct0, acct1] ∧
    st0.active_account_index = some 0 ∧
    truthyOptStr acct0.ftp_host = true ∧
    (account_login envOutgoingAuthFail acct0).1 = false ∧
    (process_target_account cfg0 envOutgoingAuthFail acct1
      (mainPw cfg0 st0)).1 = .ok tresGood ∧
    envOutgoingAuthFail.patch_ok = true ∧
    ((∀ t, transfer_world_data envOutgoingAuthFail none t = (true, [])) ∧
     (runMain cfg0 envOutgoingAuthFail).exitCode = 0 ∧
     (runMain cfg0 envOutgoingAuthFail).written = some (commitState st0 1 tresGood) ∧
     Act.gistPatch ∈ (runMain cfg0 envOutgoingAuthFail).trace ∧
     (∀ act ∈ (runMain cfg0 envOutgoingAuthFail).trace, isLftp act = false)) :=
  ⟨rfl, rfl, rfl, by decide, by decide, rfl, rfl,
   C8_outgoing_auth_nonfatal cfg0 envOutgoingAuthFail st0 acct0 acct1 tresGood
     rfl rfl rfl (by decide) (by decide) rfl rfl⟩

/-- `runRotation` reads the loaded document only through its
`ftp_password` and `accounts` fields: the index and current-id fields
are overwritten by the commit before they are ever consulted. -/
theorem runRotation_state_fields (cfg : Config) (env : Env)
    (x1 x2 : Option Int) (c1 c2 : Option PVal) (fp : Option String)
    (ac : List Account) (a t : Account) (next : Int) :
    runRotation cfg env ⟨x1, c1, fp, ac⟩ a t next =
      runRotation cfg env ⟨x2, c2, fp, ac⟩ a t next := rfl

/-- C10: a loaded document with the `active_account_index` key absent
is processed exactly as if the key were present with value 0 — slot 0
is treated as the expiring slot and the run rotates to slot 1. -/
theorem C10_missing_index_defaults (cfg : Config) (env : Env) (st : RotState)
    (habs : st.active_account_index = none) :
    runAfterLoad cfg env st =
      runAfterLoad cfg env { st with active_account_index := some 0 } := by
  rcases st with ⟨ai, cs, fp, ac⟩
  dsimp only at habs
  subst habs
  show runAfterLoad cfg env ⟨none, cs, fp, ac⟩ =
    runAfterLoad cfg env ⟨some 0, cs, fp, ac⟩
  unfold runAfterLoad
  dsimp only [Option.getD]
  rcases h0 : pyGet ac ((0:Int)) with _ | a
  · rfl
  · rcases h1 : pyGet ac (if (0:Int) = 0 then (1:Int) else 0) with _ | t
    · rfl
    · exact runRotation_state_fields cfg env none (some 0) cs cs fp ac a t _

/-- C10 witness: on the sample document with the index key removed,
the run equals the run on the same document with index 0. -/
theorem C10_missing_index_defaults_witness :
    stNoIndex.active_account_index = none ∧
    runAfterLoad cfg0 envNoIndex stNoIndex =
      runAfterLoad cfg0 envNoIndex { stNoIndex with active_account_index := some 0 } :=
  ⟨rfl, C10_missing_index_defaults cfg0 envNoIndex stNoIndex rfl⟩
